import Mathlib

/-
Verification of the node-social backend: a shallow embedding of the
request-authorization and mutation-broadcast pipeline shared by the REST
feed controllers (Backend/controllers/feed.js, two variants) and the
GraphQL resolvers (Backend/graphql/resolvers.js), together with the JWT
authentication middleware (Backend/middleware/auth.js).

The document store (mongoose) is modelled as an explicit in-memory store
of Post and User records; findById / save / findByIdAndDelete / pull
become pure operations on that store.  Side effects that do not touch the
store (image-file deletion via clearImage, the socket broadcast via
io.getIO, the null dereference a JS TypeError would raise) are recorded
in an event trace, so that ordering and frame properties can be stated.
Every handler returns the normalized result (the JS controllers catch all
exceptions and normalize them through the global error middleware, which
defaults a missing status code to 500 - the GraphQL formatError hook does
the same with err.code), the resulting store, and the trace of events in
execution order.
-/

/-- JS String.prototype.split on a single separator character, at the
character-list level: split "" gives [""], a string without the separator
gives a one-element list. -/
def splitChars (sep : Char) : List Char → List (List Char)
  | [] => [[]]
  | c :: cs =>
    let r := splitChars sep cs
    if c = sep then [] :: r
    else
      match r with
      | [] => [[c]]
      | w :: ws => (c :: w) :: ws

/-- JS s.split(sep) for a one-character separator. -/
def jsSplit (s : String) (sep : Char) : List String :=
  (splitChars sep s.data).map (fun w => String.mk w)

/-- Replace the first occurrence of character a by b, as in the JS
s.replace(a, b) calls of the controllers (path separator normalization). -/
def replFirstChar (a b : Char) : List Char → List Char
  | [] => []
  | c :: cs => if c = a then b :: cs else c :: replFirstChar a b cs

/-- JS s.replace(a, b) for one-character patterns: first occurrence only. -/
def jsReplaceFirst (s : String) (a b : Char) : String :=
  String.mk (replFirstChar a b s.data)

/-- A Post document (Backend/models/post.js): title, imageUrl, content and
creator are required; timestamps adds createdAt and updatedAt.  Object ids
are modelled as Nat. -/
structure Post where
  _id : Nat
  title : String
  content : String
  imageUrl : String
  creator : Nat
  createdAt : Nat
  updatedAt : Nat
deriving Repr, DecidableEq

/-- A User document (Backend/models/user.js): email, password, name are
required, status defaults to the new-user text, posts is the list of owned
Post ids. -/
structure User where
  _id : Nat
  email : String
  password : String
  name : String
  status : String
  posts : List Nat
deriving Repr, DecidableEq

/-- The document store: the Posts and Users collections. -/
structure Store where
  posts : List Post
  users : List User
deriving Repr, DecidableEq

/-- Post.findById. -/
def Store.findPost (s : Store) (pid : Nat) : Option Post :=
  s.posts.find? (fun p => p._id == pid)

/-- User.findById. -/
def Store.findUser (s : Store) (uid : Nat) : Option User :=
  s.users.find? (fun u => u._id == uid)

/-- save() on a newly constructed Post document: insert. -/
def Store.insertPost (s : Store) (p : Post) : Store :=
  { s with posts := s.posts ++ [p] }

/-- save() on a fetched Post document: replace the record with that id. -/
def Store.savePost (s : Store) (p : Post) : Store :=
  { s with posts := s.posts.map (fun x => if x._id == p._id then p else x) }

/-- Post.findByIdAndDelete. -/
def Store.deletePostById (s : Store) (pid : Nat) : Store :=
  { s with posts := s.posts.filter (fun p => p._id != pid) }

/-- save() on a fetched User document: replace the record with that id. -/
def Store.saveUser (s : Store) (u : User) : Store :=
  { s with users := s.users.map (fun x => if x._id == u._id then u else x) }

/-- The error shape both surfaces normalize to.  REST controllers throw an
Error carrying message, an optional statusCode and (per the global error
middleware, which responds with error.data) an optional data payload; the
GraphQL resolvers throw an Error carrying message, an optional code and
optional data, which formatError turns into message, status and data.  In
both, a missing code defaults to 500. -/
structure ApiError where
  message : String
  code : Option Nat
  data : List String
deriving Repr, DecidableEq

/-- The HTTP status finally reported for an error: the explicit code when
one was set, 500 otherwise (err.statusCode = 500 in the REST catch blocks,
err.originalError.code or 500 in formatError). -/
def ApiError.status (e : ApiError) : Nat :=
  e.code.getD 500

/-- Observable side-effect events, recorded in execution order. -/
inductive Event where
  | authCheck (ok : Bool)
  | validationCheck (ok : Bool)
  | readPost (id : Nat)
  | readAllPosts
  | readUser (id : Nat)
  | resolutionCheck (found : Bool)
  | ownershipCheck (ok : Bool)
  | clearImage (path : String)
  | insertPost (id : Nat)
  | savePost (id : Nat)
  | deletePostWrite (id : Nat)
  | saveUser (id : Nat)
  | emit (action : String)
  | nullDeref (what : String)
deriving Repr, DecidableEq

/-- Pipeline check steps (authentication, validation, resolution,
ownership). -/
def Event.isCheck : Event → Bool
  | .authCheck _ => true
  | .validationCheck _ => true
  | .resolutionCheck _ => true
  | .ownershipCheck _ => true
  | _ => false

/-- Writes against the Posts collection. -/
def Event.isPostWrite : Event → Bool
  | .insertPost _ => true
  | .savePost _ => true
  | .deletePostWrite _ => true
  | _ => false

/-- Writes against the Users collection. -/
def Event.isUserWrite : Event → Bool
  | .saveUser _ => true
  | _ => false

/-- Any persistence write. -/
def Event.isPersist (e : Event) : Bool :=
  e.isPostWrite || e.isUserWrite

/-- The socket broadcast. -/
def Event.isEmit : Event → Bool
  | .emit _ => true
  | _ => false

/-- An image-file deletion attempt. -/
def Event.isClearImage : Event → Bool
  | .clearImage _ => true
  | _ => false

/-- A read or write against the store. -/
def Event.isStoreAccess (e : Event) : Bool :=
  match e with
  | .readPost _ => true
  | .readAllPosts => true
  | .readUser _ => true
  | _ => e.isPersist

/-- No event satisfying p occurs strictly after the first event satisfying
q: with disjoint classes this says every p event precedes every q event. -/
def noneAfterFirst (p q : Event → Bool) : List Event → Bool
  | [] => true
  | e :: t => if q e then t.all (fun x => !(p x)) else noneAfterFirst p q t

deriving instance DecidableEq for Except

/-- The result of a handler: the normalized response or error, the store
it leaves behind, and the trace of side-effect events in order. -/
structure Outcome (α : Type) where
  result : Except ApiError α
  store : Store
  trace : List Event
deriving Repr

/-- The ordering discipline of claim C6, as one decidable predicate on an
outcome: checks precede persistence, Post writes precede User writes, all
persistence precedes the broadcast, a broadcast implies some persistence
happened, and a failed mutation never broadcasts. -/
def goodMutationTrace {α : Type} (o : Outcome α) : Bool :=
  noneAfterFirst Event.isCheck Event.isPersist o.trace
  && noneAfterFirst Event.isPostWrite Event.isUserWrite o.trace
  && noneAfterFirst Event.isPersist Event.isEmit o.trace
  && (!(o.trace.any Event.isEmit) || o.trace.any Event.isPersist)
  && (o.result.isOk || !(o.trace.any Event.isEmit))

/-- The payload of a verified JWT (signed at login as userId and email). -/
structure TokenPayload where
  userId : Nat
  email : String
deriving Repr, DecidableEq

/-- The outcome of jwt.verify, which is external: it either throws (bad
signature, expired, malformed or missing token) or returns a decoded
value, defensively allowed to be falsy by the middleware. -/
inductive VerifyOutcome where
  | threw
  | decoded (p : Option TokenPayload)
deriving Repr, DecidableEq

/-- What the auth middleware leaves on the request, plus how many times it
invoked next(). -/
structure AuthResult where
  isAuth : Bool
  userId : Option Nat
  nextCalls : Nat
deriving Repr, DecidableEq

/-- Backend/middleware/auth.js: read the Authorization header; if absent,
mark unauthenticated and continue; otherwise take the second
space-separated field as the token and verify it; on a throw or a falsy
decode mark unauthenticated and continue; otherwise attach the userId from
the payload, mark authenticated, and continue.  Every path calls next()
exactly once and none writes a response. -/
def authMiddleware (verify : Option String → VerifyOutcome)
    (authHeader : Option String) : AuthResult :=
  match authHeader with
  | none => ⟨false, none, 1⟩
  | some h =>
    match verify ((jsSplit h ' ')[1]?) with
    | .threw => ⟨false, none, 1⟩
    | .decoded none => ⟨false, none, 1⟩
    | .decoded (some p) => ⟨true, some p.userId, 1⟩

/-- The GraphQL request context the auth middleware leaves behind:
req.isAuth and req.userId. -/
structure AuthCtx where
  isAuth : Bool
  userId : Nat
deriving Repr, DecidableEq

/-- GraphQL PostInputData: title, content, imageUrl. -/
structure PostInput where
  title : String
  content : String
  imageUrl : String
deriving Repr, DecidableEq

/-- The validation block shared verbatim by the createPost and updatePost
resolvers: empty-title, title shorter than 5, empty-content, content
shorter than 5, each pushing its message; all violations are collected. -/
def validatePostInput (pi : PostInput) : List String :=
  (if pi.title.length = 0 then ["Title should not be empty"] else [])
  ++ (if pi.title.length < 5 then ["Title should have a minimum length of 5"] else [])
  ++ (if pi.content.length = 0 then ["Content should not be empty"] else [])
  ++ (if pi.content.length < 5 then ["Content should have a minimum length of 5"] else [])

/-- A REST create request after the route middleware ran: the collected
express-validator result (the route definitions live outside this file, so
the collected messages are an input; the controller only tests emptiness),
the multer file path if an image was accepted, the body fields, and the
userId the auth middleware attached. -/
structure RestCreateReq where
  validationErrors : List String
  file : Option String
  title : String
  content : String
  userId : Nat
deriving Repr, DecidableEq

/-- A REST update request: route param postId, the express-validator
result, body fields title, content and image, the multer file path if a
new image was uploaded, and the authenticated userId. -/
structure RestUpdateReq where
  postId : Nat
  validationErrors : List String
  title : String
  content : String
  bodyImage : Option String
  file : Option String
  userId : Nat
deriving Repr, DecidableEq

/-- REST POST /feed/post (controllers/feed.js createPost): 422 if the
validator result is nonempty (the thrown error carries no data payload),
422 if no file was accepted, otherwise build the Post from the normalized
file path, insert it, push it onto the creator's posts and save the user
(a missing user faults on user.posts with a TypeError, normalized to 500),
then broadcast the create action and respond 201. -/
def restCreatePost (req : RestCreateReq) (newId now : Nat) (s : Store) :
    Outcome Post :=
  if req.validationErrors ≠ [] then
    ⟨.error ⟨"Validation failed, entered data is incorrect.", some 422, []⟩, s,
      [.validationCheck false]⟩
  else
    match req.file with
    | none =>
      ⟨.error ⟨"No image provided.", some 422, []⟩, s,
        [.validationCheck true, .validationCheck false]⟩
    | some fp =>
      let imageUrl := jsReplaceFirst fp '\\' '/'
      let post : Post :=
        ⟨newId, req.title, req.content, imageUrl, req.userId, now, now⟩
      let s₁ := s.insertPost post
      match s₁.findUser req.userId with
      | none =>
        ⟨.error ⟨"TypeError: cannot read posts of null", none, []⟩, s₁,
          [.validationCheck true, .validationCheck true, .insertPost newId,
            .readUser req.userId, .nullDeref "user.posts"]⟩
      | some user =>
        let user' := { user with posts := user.posts ++ [newId] }
        ⟨.ok post, s₁.saveUser user',
          [.validationCheck true, .validationCheck true, .insertPost newId,
            .readUser req.userId, .saveUser user._id, .emit "create"]⟩

/-- REST PUT /feed/post/:postId (controllers/feed.js updatePost): 422 on a
nonempty validator result; the effective image is the uploaded file path
if any, else body.image; 422 if that is falsy; 404 if the post does not
resolve; 403 if the creator differs from the authenticated user; if the
effective image differs from the stored one, clear the old file; then
overwrite title, imageUrl and content, save, broadcast the update action
and respond 200. -/
def restUpdatePost (req : RestUpdateReq) (now : Nat) (s : Store) :
    Outcome Post :=
  if req.validationErrors ≠ [] then
    ⟨.error ⟨"Validation failed, entered data is incorrect.", some 422, []⟩, s,
      [.validationCheck false]⟩
  else
    let imageUrl : Option String :=
      match req.file with
      | some fp => some (jsReplaceFirst fp '\\' '/')
      | none => req.bodyImage
    if imageUrl.getD "" = "" then
      ⟨.error ⟨"No file picked!", some 422, []⟩, s,
        [.validationCheck true, .validationCheck false]⟩
    else
      let img := imageUrl.getD ""
      match s.findPost req.postId with
      | none =>
        ⟨.error ⟨"Could not find post.", some 404, []⟩, s,
          [.validationCheck true, .validationCheck true, .readPost req.postId,
            .resolutionCheck false]⟩
      | some post =>
        if post.creator ≠ req.userId then
          ⟨.error ⟨"Not Authorized!", some 403, []⟩, s,
            [.validationCheck true, .validationCheck true, .readPost req.postId,
              .resolutionCheck true, .ownershipCheck false]⟩
        else
          let post' := { post with
            title := req.title, imageUrl := img, content := req.content,
            updatedAt := now }
          ⟨.ok post', s.savePost post',
            [.validationCheck true, .validationCheck true, .readPost req.postId,
              .resolutionCheck true, .ownershipCheck true]
            ++ (if img ≠ post.imageUrl then [.clearImage post.imageUrl] else [])
            ++ [.savePost post._id, .emit "update"]⟩

/-- REST DELETE /feed/post/:postId, first controller variant
(controllers/feed.js deletePost): 404 if the post does not resolve, 403 if
the creator differs, otherwise clear the image, delete the post, pull the
id from the creator's posts and save the user (a missing user faults with
a TypeError), then broadcast the delete action and respond 200. -/
def restDeletePost (userId postId : Nat) (s : Store) : Outcome Unit :=
  match s.findPost postId with
  | none =>
    ⟨.error ⟨"Could not find post.", some 404, []⟩, s,
      [.readPost postId, .resolutionCheck false]⟩
  | some post =>
    if post.creator ≠ userId then
      ⟨.error ⟨"Not Authorized!", some 403, []⟩, s,
        [.readPost postId, .resolutionCheck true, .ownershipCheck false]⟩
    else
      let s₁ := s.deletePostById postId
      match s₁.findUser userId with
      | none =>
        ⟨.error ⟨"TypeError: cannot read posts of null", none, []⟩, s₁,
          [.readPost postId, .resolutionCheck true, .ownershipCheck true,
            .clearImage post.imageUrl, .deletePostWrite postId,
            .readUser userId, .nullDeref "user.posts"]⟩
      | some user =>
        let user' := { user with posts := user.posts.filter (fun x => x != postId) }
        ⟨.ok (), s₁.saveUser user',
          [.readPost postId, .resolutionCheck true, .ownershipCheck true,
            .clearImage post.imageUrl, .deletePostWrite postId,
            .readUser userId, .saveUser user._id, .emit "delete"]⟩

/-- REST DELETE /feed/post/:postId, second controller variant: it calls
clearImage(post.imageUrl) immediately after the fetch, before the
existence check, so a missing post faults on the null dereference (a
TypeError with no statusCode, normalized to 500) and the 404 branch is
never reached; for an existing post the flow is check ownership, delete,
pull the id from the creator's posts and save - this variant emits no
broadcast. -/
def restDeletePostV2 (userId postId : Nat) (s : Store) : Outcome Unit :=
  match s.findPost postId with
  | none =>
    ⟨.error ⟨"TypeError: cannot read imageUrl of null", none, []⟩, s,
      [.readPost postId, .nullDeref "post.imageUrl"]⟩
  | some post =>
    if post.creator ≠ userId then
      ⟨.error ⟨"Not Authorized!", some 403, []⟩, s,
        [.readPost postId, .clearImage post.imageUrl, .resolutionCheck true,
          .ownershipCheck false]⟩
    else
      let s₁ := s.deletePostById postId
      match s₁.findUser userId with
      | none =>
        ⟨.error ⟨"TypeError: cannot read posts of null", none, []⟩, s₁,
          [.readPost postId, .clearImage post.imageUrl, .resolutionCheck true,
            .ownershipCheck true, .deletePostWrite postId, .readUser userId,
            .nullDeref "user.posts"]⟩
      | some user =>
        let user' := { user with posts := user.posts.filter (fun x => x != postId) }
        ⟨.ok (), s₁.saveUser user',
          [.readPost postId, .clearImage post.imageUrl, .resolutionCheck true,
            .ownershipCheck true, .deletePostWrite postId, .readUser userId,
            .saveUser user._id]⟩

/-- GraphQL createPost resolver: reject unauthenticated requests before
touching the store; collect all input violations and fail 422 with them as
data; resolve the user (a missing user is the handled Invalid User error);
insert the post, push it onto the user's posts and save the user.  No
broadcast on the GraphQL surface. -/
def gqlCreatePost (ctx : AuthCtx) (pi : PostInput) (newId now : Nat)
    (s : Store) : Outcome Post :=
  if !ctx.isAuth then
    ⟨.error ⟨"Not authenticated!", none, []⟩, s, [.authCheck false]⟩
  else
    let errs := validatePostInput pi
    if errs ≠ [] then
      ⟨.error ⟨"Invalid input.", some 422, errs⟩, s,
        [.authCheck true, .validationCheck false]⟩
    else
      match s.findUser ctx.userId with
      | none =>
        ⟨.error ⟨"Invalid User.", none, []⟩, s,
          [.authCheck true, .validationCheck true, .readUser ctx.userId,
            .resolutionCheck false]⟩
      | some user =>
        let post : Post :=
          ⟨newId, pi.title, pi.content, pi.imageUrl, user._id, now, now⟩
        let s₁ := s.insertPost post
        let user' := { user with posts := user.posts ++ [newId] }
        ⟨.ok post, s₁.saveUser user',
          [.authCheck true, .validationCheck true, .readUser ctx.userId,
            .resolutionCheck true, .insertPost newId, .saveUser user._id]⟩

/-- Insert a post into a list kept in descending createdAt order. -/
def insertByCreatedAtDesc (p : Post) : List Post → List Post
  | [] => [p]
  | q :: t =>
    if q.createdAt ≤ p.createdAt then p :: q :: t
    else q :: insertByCreatedAtDesc p t

/-- sort createdAt descending, as in the getPosts query. -/
def sortByCreatedAtDesc : List Post → List Post
  | [] => []
  | p :: t => insertByCreatedAtDesc p (sortByCreatedAtDesc t)

/-- The getPosts payload: the page of posts and the total count. -/
structure PostData where
  posts : List Post
  totalPosts : Nat
deriving Repr

/-- GraphQL getPosts resolver: authentication first; page defaults to 1
when absent or falsy; count all posts, then fetch the page of 2 sorted by
createdAt descending with skip (page - 1) * 2. -/
def gqlGetPosts (ctx : AuthCtx) (page : Option Nat) (s : Store) :
    Outcome PostData :=
  if !ctx.isAuth then
    ⟨.error ⟨"Not authenticated!", none, []⟩, s, [.authCheck false]⟩
  else
    let p := match page with
      | none => 1
      | some 0 => 1
      | some n => n
    let perPage := 2
    let totalPosts := s.posts.length
    let pagePosts := ((sortByCreatedAtDesc s.posts).drop ((p - 1) * perPage)).take perPage
    ⟨.ok ⟨pagePosts, totalPosts⟩, s,
      [.authCheck true, .readAllPosts, .readAllPosts]⟩

/-- GraphQL getPost resolver: authentication first; 500-style generic
error when the post does not resolve. -/
def gqlGetPost (ctx : AuthCtx) (id : Nat) (s : Store) : Outcome Post :=
  if !ctx.isAuth then
    ⟨.error ⟨"Not authenticated!", none, []⟩, s, [.authCheck false]⟩
  else
    match s.findPost id with
    | none =>
      ⟨.error ⟨"No post found!", none, []⟩, s,
        [.authCheck true, .readPost id, .resolutionCheck false]⟩
    | some post =>
      ⟨.ok post, s, [.authCheck true, .readPost id, .resolutionCheck true]⟩

/-- GraphQL updatePost resolver: authentication, then resolution (No post
found!), then ownership (Not authorized!, no code), and only then input
validation; title and content are overwritten, imageUrl only when the
input imageUrl is not the literal string undefined; save and return.  No
clearImage call and no broadcast anywhere on this path. -/
def gqlUpdatePost (ctx : AuthCtx) (id : Nat) (pi : PostInput) (now : Nat)
    (s : Store) : Outcome Post :=
  if !ctx.isAuth then
    ⟨.error ⟨"Not authenticated!", none, []⟩, s, [.authCheck false]⟩
  else
    match s.findPost id with
    | none =>
      ⟨.error ⟨"No post found!", none, []⟩, s,
        [.authCheck true, .readPost id, .resolutionCheck false]⟩
    | some post =>
      if post.creator ≠ ctx.userId then
        ⟨.error ⟨"Not authorized!", none, []⟩, s,
          [.authCheck true, .readPost id, .resolutionCheck true,
            .ownershipCheck false]⟩
      else
        let errs := validatePostInput pi
        if errs ≠ [] then
          ⟨.error ⟨"Invalid input.", some 422, errs⟩, s,
            [.authCheck true, .readPost id, .resolutionCheck true,
              .ownershipCheck true, .validationCheck false]⟩
        else
          let post' := { post with
            title := pi.title, content := pi.content,
            imageUrl := if pi.imageUrl ≠ "undefined" then pi.imageUrl
                        else post.imageUrl,
            updatedAt := now }
          ⟨.ok post', s.savePost post',
            [.authCheck true, .readPost id, .resolutionCheck true,
              .ownershipCheck true, .validationCheck true,
              .savePost post._id]⟩

/-- GraphQL deletePost resolver: authentication, resolution, ownership;
then clear the image at the path with its first slash turned into a
backslash, delete the post, pull the id from the creator's posts and save
the user (a missing user faults with a TypeError).  Returns true; no
broadcast. -/
def gqlDeletePost (ctx : AuthCtx) (id : Nat) (s : Store) : Outcome Bool :=
  if !ctx.isAuth then
    ⟨.error ⟨"Not authenticated!", none, []⟩, s, [.authCheck false]⟩
  else
    match s.findPost id with
    | none =>
      ⟨.error ⟨"No post found!", none, []⟩, s,
        [.authCheck true, .readPost id, .resolutionCheck false]⟩
    | some post =>
      if post.creator ≠ ctx.userId then
        ⟨.error ⟨"Not authorized!", none, []⟩, s,
          [.authCheck true, .readPost id, .resolutionCheck true,
            .ownershipCheck false]⟩
      else
        let s₁ := s.deletePostById id
        match s₁.findUser ctx.userId with
        | none =>
          ⟨.error ⟨"TypeError: cannot read posts of null", none, []⟩, s₁,
            [.authCheck true, .readPost id, .resolutionCheck true,
              .ownershipCheck true,
              .clearImage (jsReplaceFirst post.imageUrl '/' '\\'),
              .deletePostWrite id, .readUser ctx.userId,
              .nullDeref "user.posts"]⟩
        | some user =>
          let user' := { user with posts := user.posts.filter (fun x => x != id) }
          ⟨.ok true, s₁.saveUser user',
            [.authCheck true, .readPost id, .resolutionCheck true,
              .ownershipCheck true,
              .clearImage (jsReplaceFirst post.imageUrl '/' '\\'),
              .deletePostWrite id, .readUser ctx.userId,
              .saveUser user._id]⟩

/-- GraphQL user resolver: authentication first, then resolve the current
user. -/
def gqlUser (ctx : AuthCtx) (s : Store) : Outcome User :=
  if !ctx.isAuth then
    ⟨.error ⟨"Not authenticated!", none, []⟩, s, [.authCheck false]⟩
  else
    match s.findUser ctx.userId with
    | none =>
      ⟨.error ⟨"No user found!", none, []⟩, s,
        [.authCheck true, .readUser ctx.userId, .resolutionCheck false]⟩
    | some user =>
      ⟨.ok user, s, [.authCheck true, .readUser ctx.userId, .resolutionCheck true]⟩

/-- GraphQL updateStatus resolver: authentication first, then resolve the
current user, overwrite the status and save. -/
def gqlUpdateStatus (ctx : AuthCtx) (status : String) (s : Store) :
    Outcome User :=
  if !ctx.isAuth then
    ⟨.error ⟨"Not authenticated!", none, []⟩, s, [.authCheck false]⟩
  else
    match s.findUser ctx.userId with
    | none =>
      ⟨.error ⟨"No user found!", none, []⟩, s,
        [.authCheck true, .readUser ctx.userId, .resolutionCheck false]⟩
    | some user =>
      let user' := { user with status := status }
      ⟨.ok user', s.saveUser user',
        [.authCheck true, .readUser ctx.userId, .resolutionCheck true,
          .saveUser user._id]⟩

/-- The PUT /post-image endpoint of Backend/app.js: reject when not
authenticated; answer 200 No file provided! without clearing anything when
no file was accepted; when body.oldPath is truthy, clear the old image at
the path with its first slash turned into a backslash; answer 201 with the
normalized new file path. -/
def putPostImage (isAuth : Bool) (file : Option String)
    (oldPath : Option String) : Except ApiError (Nat × String) × List Event :=
  if !isAuth then
    (.error ⟨"Not authenticated!", none, []⟩, [.authCheck false])
  else
    match file with
    | none => (.ok (200, ""), [.authCheck true])
    | some fp =>
      let cleanup :=
        match oldPath with
        | none => []
        | some op =>
          if op = "" then []
          else [Event.clearImage (jsReplaceFirst op '/' '\\')]
      (.ok (201, jsReplaceFirst fp '\\' '/'), [.authCheck true] ++ cleanup)

/-- The error code a handler result carries, if it failed. -/
def resultCode {α : Type} : Except ApiError α → Option Nat
  | .error e => e.code
  | .ok _ => none

/-- The error message a handler result carries, if it failed. -/
def resultMessage {α : Type} : Except ApiError α → Option String
  | .error e => some e.message
  | .ok _ => none

/-- A concrete post owned by user 1, used by the witnesses. -/
def samplePost : Post :=
  ⟨1, "First post", "Hello world content", "images/old.png", 1, 3, 3⟩

/-- The concrete owner of samplePost. -/
def sampleUser : User :=
  ⟨1, "a@b.com", "hashedpw", "Alice", "I am new!", [1]⟩

/-- A concrete store holding samplePost and sampleUser. -/
def sampleStore : Store :=
  ⟨[samplePost], [sampleUser]⟩

/-- The empty store. -/
def emptyStore : Store :=
  ⟨[], []⟩

/-- An input violating both minimum-length rules. -/
def shortInput : PostInput :=
  ⟨"Hi", "x", "images/p.png"⟩

/-- A valid post input carrying a fresh image path. -/
def freshInput : PostInput :=
  ⟨"Fresh title", "Fresh content", "images/new.png"⟩

/-- A verify function that accepts every token as user 7, used by the C3
witness. -/
def sampleVerify : Option String → VerifyOutcome :=
  fun _ => .decoded (some ⟨7, "a@b.com"⟩)

/-- Searching by key in a list from which all records with that key were
filtered out finds nothing. -/
theorem find?_filter_ne_none {α : Type} (key : α → Nat) (l : List α) (k : Nat) :
    (l.filter (fun x => key x != k)).find? (fun x => key x == k) = none := by
  simp only [List.find?_eq_none]
  intro x hx
  have h2 := (List.mem_filter.mp hx).2
  simp only [bne_iff_ne, ne_eq] at h2
  simp [h2]

/-- Replacing, by key, the record a search finds makes the same search
find the replacement, provided the replacement keeps the key. -/
theorem find?_map_update {α : Type} (key : α → Nat) (l : List α) (k : Nat)
    (a b : α) (h : l.find? (fun x => key x == k) = some a) (hb : key b = k) :
    (l.map (fun x => if key x == key b then b else x)).find?
      (fun x => key x == k) = some b := by
  induction l with
  | nil => simp [List.find?] at h
  | cons e t ih =>
    by_cases he : key e = k
    · simp [List.find?, he, hb]
    · simp only [List.find?, show (key e == k) = false by simp [he]] at h
      simpa [List.find?, hb, he, show (key e == k) = false by simp [he]]
        using ih h

/-- The record a successful findPost returns carries the id it was looked
up by. -/
theorem findPost_id {s : Store} {pid : Nat} {p : Post}
    (h : s.findPost pid = some p) : p._id = pid := by
  have := List.find?_some h
  simpa using this

/-- The record a successful findUser returns carries the id it was looked
up by. -/
theorem findUser_id {s : Store} {uid : Nat} {u : User}
    (h : s.findUser uid = some u) : u._id = uid := by
  have := List.find?_some h
  simpa using this

/-- Deleting a post leaves the Users collection untouched. -/
theorem findUser_deletePost (s : Store) (pid uid : Nat) :
    (s.deletePostById pid).findUser uid = s.findUser uid := rfl

/-- Saving a user leaves the Posts collection untouched. -/
theorem findPost_saveUser (s : Store) (u : User) (pid : Nat) :
    (s.saveUser u).findPost pid = s.findPost pid := rfl

/-- After a deletion, the deleted id resolves to nothing. -/
theorem findPost_deletePost_self (s : Store) (pid : Nat) :
    (s.deletePostById pid).findPost pid = none :=
  find?_filter_ne_none Post._id s.posts pid

/-- After saving a fetched post back (same id), finding that id returns
the saved version. -/
theorem findPost_savePost {s : Store} {pid : Nat} {p q : Post}
    (h : s.findPost pid = some p) (hq : q._id = pid) :
    (s.savePost q).findPost pid = some q := by
  have := find?_map_update Post._id s.posts pid p q h (by simpa using hq)
  simpa [Store.savePost, Store.findPost, hq] using this

/-- After saving a fetched user back (same id), finding that id returns
the saved version. -/
theorem findUser_saveUser {s : Store} {uid : Nat} {u v : User}
    (h : s.findUser uid = some u) (hv : v._id = uid) :
    (s.saveUser v).findUser uid = some v := by
  have := find?_map_update User._id s.users uid u v h (by simpa using hv)
  simpa [Store.saveUser, Store.findUser, hv] using this

/-- C3: the Auth Gate never rejects a request: with no Authorization
header, a token on which verification throws (malformed, bad signature,
expired), or a falsy decode, it marks the request unauthenticated and
continues; with a verifying token it marks it authenticated with the
userId from the payload; in every case next() is invoked exactly once. -/
theorem c3_auth_gate_total (verify : Option String → VerifyOutcome)
    (authHeader : Option String) :
    (authMiddleware verify authHeader).nextCalls = 1
    ∧ (authHeader = none →
        authMiddleware verify authHeader = ⟨false, none, 1⟩)
    ∧ (∀ h, authHeader = some h →
        verify ((jsSplit h ' ')[1]?) = .threw →
        authMiddleware verify authHeader = ⟨false, none, 1⟩)
    ∧ (∀ h, authHeader = some h →
        verify ((jsSplit h ' ')[1]?) = .decoded none →
        authMiddleware verify authHeader = ⟨false, none, 1⟩)
    ∧ (∀ h p, authHeader = some h →
        verify ((jsSplit h ' ')[1]?) = .decoded (some p) →
        authMiddleware verify authHeader = ⟨true, some p.userId, 1⟩) := by
  refine ⟨?_, ?_, ?_, ?_, ?_⟩
  · cases authHeader with
    | none => rfl
    | some h =>
      unfold authMiddleware
      cases hv : verify ((jsSplit h ' ')[1]?) with
      | threw => simp [hv]
      | decoded p => cases p <;> simp [hv]
  · intro hn; subst hn; rfl
  · intro h hh hv; subst hh; unfold authMiddleware; simp [hv]
  · intro h hh hv; subst hh; unfold authMiddleware; simp [hv]
  · intro h p hh hv; subst hh; unfold authMiddleware; simp [hv]

/-- C3 witness: a concrete token that verifies as user 7 authenticates the
request, and next() runs once. -/
theorem c3_auth_gate_total_witness :
    authMiddleware sampleVerify (some "Bearer tok") = ⟨true, some 7, 1⟩ :=
  (c3_auth_gate_total sampleVerify (some "Bearer tok")).2.2.2.2
    "Bearer tok" ⟨7, "a@b.com"⟩ rfl rfl

/-- C2: every GraphQL query and mutation except createUser and login,
invoked without a valid bearer token, fails with the generic Not
authenticated! error, leaves the store unchanged, and its trace is the
single failed authentication check, which touches the store neither by
read nor by write. -/
theorem c2_unauthenticated_rejected (uid newId now id : Nat)
    (page : Option Nat) (pi : PostInput) (status : String) (s : Store) :
    gqlCreatePost ⟨false, uid⟩ pi newId now s
      = ⟨.error ⟨"Not authenticated!", none, []⟩, s, [.authCheck false]⟩
    ∧ gqlGetPosts ⟨false, uid⟩ page s
      = ⟨.error ⟨"Not authenticated!", none, []⟩, s, [.authCheck false]⟩
    ∧ gqlGetPost ⟨false, uid⟩ id s
      = ⟨.error ⟨"Not authenticated!", none, []⟩, s, [.authCheck false]⟩
    ∧ gqlUpdatePost ⟨false, uid⟩ id pi now s
      = ⟨.error ⟨"Not authenticated!", none, []⟩, s, [.authCheck false]⟩
    ∧ gqlDeletePost ⟨false, uid⟩ id s
      = ⟨.error ⟨"Not authenticated!", none, []⟩, s, [.authCheck false]⟩
    ∧ gqlUser ⟨false, uid⟩ s
      = ⟨.error ⟨"Not authenticated!", none, []⟩, s, [.authCheck false]⟩
    ∧ gqlUpdateStatus ⟨false, uid⟩ status s
      = ⟨.error ⟨"Not authenticated!", none, []⟩, s, [.authCheck false]⟩
    ∧ [Event.authCheck false].any Event.isStoreAccess = false :=
  ⟨rfl, rfl, rfl, rfl, rfl, rfl, rfl, rfl⟩

/-- C10: in the second REST deletePost variant, a delete of a nonexistent
post id faults on the null dereference of post.imageUrl (a TypeError with
no status code, normalized to 500) before the Could not find post. branch
can run: the 404 path is unreachable for a missing post. -/
theorem c10_delete_variant2_null_deref (uid postId : Nat) (s : Store)
    (h : s.findPost postId = none) :
    restDeletePostV2 uid postId s
      = ⟨.error ⟨"TypeError: cannot read imageUrl of null", none, []⟩, s,
          [.readPost postId, .nullDeref "post.imageUrl"]⟩
    ∧ ApiError.status ⟨"TypeError: cannot read imageUrl of null", none, []⟩ = 500
    ∧ resultMessage (restDeletePostV2 uid postId s).result
        ≠ some "Could not find post."
    ∧ resultCode (restDeletePostV2 uid postId s).result ≠ some 404 := by
  unfold restDeletePostV2
  rw [h]
  refine ⟨rfl, rfl, by simp [resultMessage], by simp [resultCode]⟩

/-- C10 witness: deleting post 1 from the empty store through the second
variant yields the TypeError outcome. -/
theorem c10_delete_variant2_null_deref_witness :
    restDeletePostV2 1 1 emptyStore
      = ⟨.error ⟨"TypeError: cannot read imageUrl of null", none, []⟩,
          emptyStore, [.readPost 1, .nullDeref "post.imageUrl"]⟩ :=
  (c10_delete_variant2_null_deref 1 1 emptyStore rfl).1

/-- C1 counterexample: on the GraphQL surface the ownership failure is the
Not authorized! error thrown with no code, so the reported status is the
default 500, not the 403 the claim states (user 2 deleting post 1 owned by
user 1). -/
theorem c1_counterexample :
    (gqlDeletePost ⟨true, 2⟩ 1 sampleStore).result
      = .error ⟨"Not authorized!", none, []⟩
    ∧ ApiError.status ⟨"Not authorized!", none, []⟩ = 500
    ∧ ApiError.status ⟨"Not authorized!", none, []⟩ ≠ 403
    ∧ (gqlDeletePost ⟨true, 2⟩ 1 sampleStore).store = sampleStore := by
  refine ⟨by decide, rfl, by decide, by decide⟩

/-- C1 (amended): when the authenticated identity differs from the loaded
post creator, every update and delete handler fails without modifying the
store: the REST handlers with status 403 and message Not Authorized!, the
GraphQL resolvers with the codeless Not authorized! error (reported as
500); and on every one of the five handlers a successful result is only
possible when the identity equals the creator. -/
theorem c1_ownership_check (s : Store) (postId uid now : Nat) (post : Post)
    (title content img : String)
    (hpost : s.findPost postId = some post) (himg : img ≠ "") :
    (post.creator ≠ uid →
      ((restUpdatePost ⟨postId, [], title, content, some img, none, uid⟩ now s).result
          = .error ⟨"Not Authorized!", some 403, []⟩
        ∧ (restUpdatePost ⟨postId, [], title, content, some img, none, uid⟩ now s).store = s)
      ∧ ((restDeletePost uid postId s).result
          = .error ⟨"Not Authorized!", some 403, []⟩
        ∧ (restDeletePost uid postId s).store = s)
      ∧ ((restDeletePostV2 uid postId s).result
          = .error ⟨"Not Authorized!", some 403, []⟩
        ∧ (restDeletePostV2 uid postId s).store = s)
      ∧ ((gqlUpdatePost ⟨true, uid⟩ postId ⟨title, content, img⟩ now s).result
          = .error ⟨"Not authorized!", none, []⟩
        ∧ (gqlUpdatePost ⟨true, uid⟩ postId ⟨title, content, img⟩ now s).store = s)
      ∧ ((gqlDeletePost ⟨true, uid⟩ postId s).result
          = .error ⟨"Not authorized!", none, []⟩
        ∧ (gqlDeletePost ⟨true, uid⟩ postId s).store = s))
    ∧ ((restUpdatePost ⟨postId, [], title, content, some img, none, uid⟩ now s).result.isOk = true
        → post.creator = uid)
    ∧ ((restDeletePost uid postId s).result.isOk = true → post.creator = uid)
    ∧ ((restDeletePostV2 uid postId s).result.isOk = true → post.creator = uid)
    ∧ ((gqlUpdatePost ⟨true, uid⟩ postId ⟨title, content, img⟩ now s).result.isOk = true
        → post.creator = uid)
    ∧ ((gqlDeletePost ⟨true, uid⟩ postId s).result.isOk = true → post.creator = uid) := by
  by_cases hc : post.creator = uid
  · refine ⟨fun hne => absurd hc hne, ?_, ?_, ?_, ?_, ?_⟩ <;> exact fun _ => hc
  · constructor
    · intro _
      refine ⟨⟨?_, ?_⟩, ⟨?_, ?_⟩, ⟨?_, ?_⟩, ⟨?_, ?_⟩, ⟨?_, ?_⟩⟩ <;>
        simp [restUpdatePost, restDeletePost, restDeletePostV2, gqlUpdatePost,
          gqlDeletePost, hpost, hc, himg]
    · refine ⟨?_, ?_, ?_, ?_, ?_⟩ <;>
        · intro hok
          exfalso
          revert hok
          simp [restUpdatePost, restDeletePost, restDeletePostV2, gqlUpdatePost,
            gqlDeletePost, hpost, hc, himg, Except.isOk, Except.toBool]

/-- C1 witness: user 2 attacking post 1 owned by user 1 is rejected by the
REST delete with 403 and by the GraphQL delete with the codeless error. -/
theorem c1_ownership_check_witness :
    ((restDeletePost 2 1 sampleStore).result
        = .error ⟨"Not Authorized!", some 403, []⟩
      ∧ (restDeletePost 2 1 sampleStore).store = sampleStore)
    ∧ ((gqlDeletePost ⟨true, 2⟩ 1 sampleStore).result
        = .error ⟨"Not authorized!", none, []⟩
      ∧ (gqlDeletePost ⟨true, 2⟩ 1 sampleStore).store = sampleStore) :=
  let h := (c1_ownership_check sampleStore 1 2 5 samplePost "Some title"
    "Some content" "images/q.png" rfl (by decide)).1 (by decide)
  ⟨h.2.1, h.2.2.2.2⟩

/-- C4 counterexample: on the GraphQL updatePost path an input violating
both minimum lengths against a nonexistent post fails with No post found!
and no 422 code: resolution is decided before validation, contradicting
the claimed order. -/
theorem c4_counterexample :
    validatePostInput shortInput ≠ []
    ∧ emptyStore.findPost 1 = none
    ∧ (gqlUpdatePost ⟨true, 1⟩ 1 shortInput 5 emptyStore).result
        = .error ⟨"No post found!", none, []⟩
    ∧ resultCode (gqlUpdatePost ⟨true, 1⟩ 1 shortInput 5 emptyStore).result
        ≠ some 422 := by
  refine ⟨by decide, rfl, by decide, by decide⟩

/-- C4 (amended): on the REST update path validation is decided first: any
request with a nonempty validator result fails 422 regardless of the
store, even when the post is missing or foreign.  On the GraphQL update
path resolution and authorization come first: a missing post fails No post
found! and a foreign post fails Not authorized! even for invalid input;
only an owner with invalid input gets the 422 Invalid input. error. -/
theorem c4_pipeline_order (s : Store) (req : RestUpdateReq) (now id uid : Nat)
    (pi : PostInput) (post : Post) (hv : req.validationErrors ≠ []) :
    restUpdatePost req now s
      = ⟨.error ⟨"Validation failed, entered data is incorrect.", some 422, []⟩,
          s, [.validationCheck false]⟩
    ∧ (s.findPost id = none →
        gqlUpdatePost ⟨true, uid⟩ id pi now s
          = ⟨.error ⟨"No post found!", none, []⟩, s,
              [.authCheck true, .readPost id, .resolutionCheck false]⟩)
    ∧ (s.findPost id = some post → post.creator ≠ uid →
        (gqlUpdatePost ⟨true, uid⟩ id pi now s).result
          = .error ⟨"Not authorized!", none, []⟩)
    ∧ (s.findPost id = some post → post.creator = uid →
        validatePostInput pi ≠ [] →
        (gqlUpdatePost ⟨true, uid⟩ id pi now s).result
          = .error ⟨"Invalid input.", some 422, validatePostInput pi⟩) := by
  refine ⟨?_, ?_, ?_, ?_⟩
  · simp [restUpdatePost, hv]
  · intro hn; simp [gqlUpdatePost, hn]
  · intro hp hc; simp [gqlUpdatePost, hp, hc]
  · intro hp hc hval; simp [gqlUpdatePost, hp, hc, hval]

/-- C4 witness: a request with a recorded violation fails 422 on REST even
against the empty store, while the same doubly invalid input against a
missing GraphQL post fails No post found!. -/
theorem c4_pipeline_order_witness :
    restUpdatePost ⟨1, ["Too short"], "Hi", "x", some "images/p.png", none, 1⟩
        5 emptyStore
      = ⟨.error ⟨"Validation failed, entered data is incorrect.", some 422, []⟩,
          emptyStore, [.validationCheck false]⟩
    ∧ gqlUpdatePost ⟨true, 1⟩ 1 shortInput 5 emptyStore
      = ⟨.error ⟨"No post found!", none, []⟩, emptyStore,
          [.authCheck true, .readPost 1, .resolutionCheck false]⟩ :=
  let h := c4_pipeline_order emptyStore
    ⟨1, ["Too short"], "Hi", "x", some "images/p.png", none, 1⟩ 5 1 1
    shortInput samplePost (by decide)
  ⟨h.1, h.2.1 rfl⟩

/-- C5 counterexample: the REST createPost 422 error discards the
collected violations: with two recorded field errors the thrown error
carries an empty data payload, so the violations do not appear in the
error data. -/
theorem c5_counterexample :
    (restCreatePost ⟨["Title should have a minimum length of 5",
        "Content should have a minimum length of 5"],
        some "images/p.png", "Hi", "x", 1⟩ 2 5 sampleStore).result
      = .error ⟨"Validation failed, entered data is incorrect.", some 422, []⟩ := by
  decide

/-- C5 (amended): on the GraphQL surface a create or update by the owner
with invalid input fails 422 carrying every collected violation as data -
in particular both minimum-length messages are present whenever both
fields are short - while the REST createPost 422 carries only the generic
message with an empty data payload. -/
theorem c5_validation_collects_all (s : Store) (uid newId now id : Nat)
    (pi : PostInput) (post : Post)
    (hval : validatePostInput pi ≠ [])
    (hpost : s.findPost id = some post) (hown : post.creator = uid) :
    (gqlCreatePost ⟨true, uid⟩ pi newId now s).result
      = .error ⟨"Invalid input.", some 422, validatePostInput pi⟩
    ∧ (gqlUpdatePost ⟨true, uid⟩ id pi now s).result
      = .error ⟨"Invalid input.", some 422, validatePostInput pi⟩
    ∧ (pi.title.length < 5 →
        "Title should have a minimum length of 5" ∈ validatePostInput pi)
    ∧ (pi.content.length < 5 →
        "Content should have a minimum length of 5" ∈ validatePostInput pi)
    ∧ (∀ req : RestCreateReq, req.validationErrors ≠ [] →
        (restCreatePost req newId now s).result
          = .error ⟨"Validation failed, entered data is incorrect.",
              some 422, []⟩) := by
  refine ⟨?_, ?_, ?_, ?_, ?_⟩
  · simp [gqlCreatePost, hval]
  · simp [gqlUpdatePost, hpost, hown, hval]
  · intro h; simp [validatePostInput, h]
  · intro h; simp [validatePostInput, h]
  · intro req hreq; simp [restCreatePost, hreq]

/-- C5 witness: the doubly short input against post 1 owned by user 1
collects both minimum-length messages on the GraphQL update, while a REST
create with a recorded violation yields the data-free 422. -/
theorem c5_validation_collects_all_witness :
    (gqlUpdatePost ⟨true, 1⟩ 1 shortInput 5 sampleStore).result
      = .error ⟨"Invalid input.", some 422, validatePostInput shortInput⟩
    ∧ "Title should have a minimum length of 5" ∈ validatePostInput shortInput
    ∧ "Content should have a minimum length of 5" ∈ validatePostInput shortInput
    ∧ (restCreatePost ⟨["Some violation"], some "images/p.png", "Hi", "x", 1⟩
        2 5 sampleStore).result
      = .error ⟨"Validation failed, entered data is incorrect.", some 422, []⟩ :=
  let h := c5_validation_collects_all sampleStore 1 2 5 1 shortInput samplePost
    (by decide) rfl rfl
  ⟨h.2.1, h.2.2.1 (by decide), h.2.2.2.1 (by decide),
    h.2.2.2.2 ⟨["Some violation"], some "images/p.png", "Hi", "x", 1⟩ (by decide)⟩

/-- C7: a successful delete by the creator, on the first REST variant, the
second REST variant and the GraphQL resolver alike, leaves the post
unresolvable, stores the creator with the post id pulled from the posts
collection, and attempts deletion of the image file (the GraphQL path
first turns the first slash of the path into a backslash). -/
theorem c7_delete_effects (s : Store) (postId uid : Nat) (post : Post)
    (user : User) (hpost : s.findPost postId = some post)
    (hown : post.creator = uid) (huser : s.findUser uid = some user) :
    ((restDeletePost uid postId s).result = .ok ()
      ∧ (restDeletePost uid postId s).store.findPost postId = none
      ∧ (restDeletePost uid postId s).store.findUser uid
          = some { user with posts := user.posts.filter (fun x => x != postId) }
      ∧ Event.clearImage post.imageUrl ∈ (restDeletePost uid postId s).trace)
    ∧ ((restDeletePostV2 uid postId s).result = .ok ()
      ∧ (restDeletePostV2 uid postId s).store.findPost postId = none
      ∧ (restDeletePostV2 uid postId s).store.findUser uid
          = some { user with posts := user.posts.filter (fun x => x != postId) }
      ∧ Event.clearImage post.imageUrl ∈ (restDeletePostV2 uid postId s).trace)
    ∧ ((gqlDeletePost ⟨true, uid⟩ postId s).result = .ok true
      ∧ (gqlDeletePost ⟨true, uid⟩ postId s).store.findPost postId = none
      ∧ (gqlDeletePost ⟨true, uid⟩ postId s).store.findUser uid
          = some { user with posts := user.posts.filter (fun x => x != postId) }
      ∧ Event.clearImage (jsReplaceFirst post.imageUrl '/' '\\')
          ∈ (gqlDeletePost ⟨true, uid⟩ postId s).trace)
    ∧ postId ∉ user.posts.filter (fun x => x != postId) := by
  have hsu : (s.deletePostById postId).findUser uid = some user := huser
  have huid : user._id = uid := findUser_id huser
  have e1 : restDeletePost uid postId s
      = ⟨.ok (), (s.deletePostById postId).saveUser
          { user with posts := user.posts.filter (fun x => x != postId) },
          [.readPost postId, .resolutionCheck true, .ownershipCheck true,
            .clearImage post.imageUrl, .deletePostWrite postId,
            .readUser uid, .saveUser user._id, .emit "delete"]⟩ := by
    simp [restDeletePost, hpost, hown, hsu]
  have e2 : restDeletePostV2 uid postId s
      = ⟨.ok (), (s.deletePostById postId).saveUser
          { user with posts := user.posts.filter (fun x => x != postId) },
          [.readPost postId, .clearImage post.imageUrl, .resolutionCheck true,
            .ownershipCheck true, .deletePostWrite postId, .readUser uid,
            .saveUser user._id]⟩ := by
    simp [restDeletePostV2, hpost, hown, hsu]
  have e3 : gqlDeletePost ⟨true, uid⟩ postId s
      = ⟨.ok true, (s.deletePostById postId).saveUser
          { user with posts := user.posts.filter (fun x => x != postId) },
          [.authCheck true, .readPost postId, .resolutionCheck true,
            .ownershipCheck true,
            .clearImage (jsReplaceFirst post.imageUrl '/' '\\'),
            .deletePostWrite postId, .readUser uid, .saveUser user._id]⟩ := by
    simp [gqlDeletePost, hpost, hown, hsu]
  have hgone : ((s.deletePostById postId).saveUser
      { user with posts := user.posts.filter (fun x => x != postId) }).findPost
        postId = none := by
    rw [findPost_saveUser, findPost_deletePost_self]
  have hfound : ((s.deletePostById postId).saveUser
      { user with posts := user.posts.filter (fun x => x != postId) }).findUser
        uid = some { user with posts := user.posts.filter (fun x => x != postId) } :=
    findUser_saveUser hsu huid
  refine ⟨⟨?_, ?_, ?_, ?_⟩, ⟨?_, ?_, ?_, ?_⟩, ⟨?_, ?_, ?_, ?_⟩, ?_⟩
  · simp [e1]
  · simp only [e1]; exact hgone
  · simp only [e1]; exact hfound
  · simp [e1]
  · simp [e2]
  · simp only [e2]; exact hgone
  · simp only [e2]; exact hfound
  · simp [e2]
  · simp [e3]
  · simp only [e3]; exact hgone
  · simp only [e3]; exact hfound
  · simp [e3]
  · simp

/-- C7 witness: user 1 deleting its own post 1 from the sample store
succeeds on all three paths and produces all three effects. -/
theorem c7_delete_effects_witness :
    (restDeletePost 1 1 sampleStore).result = .ok ()
    ∧ (restDeletePost 1 1 sampleStore).store.findPost 1 = none
    ∧ (restDeletePost 1 1 sampleStore).store.findUser 1
        = some { sampleUser with posts := List.filter (fun x => x != 1) sampleUser.posts }
    ∧ Event.clearImage samplePost.imageUrl ∈ (restDeletePost 1 1 sampleStore).trace
    ∧ (gqlDeletePost ⟨true, 1⟩ 1 sampleStore).result = .ok true :=
  let h := c7_delete_effects sampleStore 1 1 samplePost sampleUser rfl rfl rfl
  ⟨h.1.1, h.1.2.1, h.1.2.2.1, h.1.2.2.2, h.2.2.1.1⟩

/-- C8 counterexample: an authenticated owner updating post 1 through the
GraphQL resolver with a fresh image path different from the stored one
succeeds without any image-file deletion being scheduled. -/
theorem c8_counterexample :
    freshInput.imageUrl ≠ samplePost.imageUrl
    ∧ sampleStore.findPost 1 = some samplePost
    ∧ (gqlUpdatePost ⟨true, 1⟩ 1 freshInput 7 sampleStore).result.isOk = true
    ∧ (gqlUpdatePost ⟨true, 1⟩ 1 freshInput 7 sampleStore).trace.any
        Event.isClearImage = false := by
  refine ⟨by decide, rfl, by decide, by decide⟩

/-- C8 (amended): on the REST update path an image path differing from the
stored one schedules deletion of the old file and an equal path schedules
none; the GraphQL updatePost resolver never schedules an image deletion
(nor does create, which has no stored image to replace) - on the GraphQL
client flow the old file is instead cleared by the separate PUT
/post-image endpoint when an oldPath is supplied. -/
theorem c8_image_transition (s : Store) (now : Nat) (post : Post)
    (postId uid : Nat) (title content img : String)
    (hpost : s.findPost postId = some post) (hown : post.creator = uid)
    (himg : img ≠ "") :
    (img ≠ post.imageUrl →
      (restUpdatePost ⟨postId, [], title, content, some img, none, uid⟩ now s).trace
        = [.validationCheck true, .validationCheck true, .readPost postId,
            .resolutionCheck true, .ownershipCheck true,
            .clearImage post.imageUrl, .savePost post._id, .emit "update"])
    ∧ (img = post.imageUrl →
      (restUpdatePost ⟨postId, [], title, content, some img, none, uid⟩ now
          s).trace.any Event.isClearImage = false)
    ∧ (∀ (ctx : AuthCtx) (id : Nat) (pi : PostInput) (n : Nat),
        (gqlUpdatePost ctx id pi n s).trace.any Event.isClearImage = false)
    ∧ (∀ (rq : RestCreateReq) (nid n : Nat),
        (restCreatePost rq nid n s).trace.any Event.isClearImage = false)
    ∧ (∀ fp op : String, op ≠ "" →
        Event.clearImage (jsReplaceFirst op '/' '\\')
          ∈ (putPostImage true (some fp) (some op)).2)
    ∧ (∀ fp : String,
        (putPostImage true (some fp) none).2.any Event.isClearImage = false) := by
  refine ⟨?_, ?_, ?_, ?_, ?_, ?_⟩
  · intro hne
    simp [restUpdatePost, hpost, hown, himg, hne]
  · intro heq
    subst heq
    simp [restUpdatePost, hpost, hown, himg, Event.isClearImage]
  · intro ctx id pi n
    simp only [gqlUpdatePost]
    repeat' split
    all_goals rfl
  · intro rq nid n
    simp only [restCreatePost]
    repeat' split
    all_goals rfl
  · intro fp op hop
    simp [putPostImage, hop]
  · intro fp
    rfl

/-- C8 witness: the owner updating post 1 over REST with a fresh image
path gets the old file cleared before the save, and the /post-image
endpoint clears a supplied oldPath. -/
theorem c8_image_transition_witness :
    (restUpdatePost ⟨1, [], "Nice title", "Nice content",
        some "images/new.png", none, 1⟩ 7 sampleStore).trace
      = [.validationCheck true, .validationCheck true, .readPost 1,
          .resolutionCheck true, .ownershipCheck true,
          .clearImage "images/old.png", .savePost 1, .emit "update"]
    ∧ Event.clearImage (jsReplaceFirst "images/old.png" '/' '\\')
      ∈ (putPostImage true (some "images\\fresh.png") (some "images/old.png")).2 :=
  let h := c8_image_transition sampleStore 7 samplePost 1 1 "Nice title"
    "Nice content" "images/new.png" rfl rfl (by decide)
  ⟨h.1 (by decide), h.2.2.2.2.1 "images\\fresh.png" "images/old.png" (by decide)⟩

/-- C9: a GraphQL updatePost by the owner whose input imageUrl is the
literal string undefined updates title and content, stores the post with
its imageUrl unchanged, and schedules no image deletion. -/
theorem c9_graphql_undefined_image (s : Store) (id uid now : Nat)
    (post : Post) (title content : String)
    (hpost : s.findPost id = some post) (hown : post.creator = uid)
    (hval : validatePostInput ⟨title, content, "undefined"⟩ = []) :
    (gqlUpdatePost ⟨true, uid⟩ id ⟨title, content, "undefined"⟩ now s).result
      = .ok { post with title := title, content := content, updatedAt := now }
    ∧ (gqlUpdatePost ⟨true, uid⟩ id ⟨title, content, "undefined"⟩ now
        s).store.findPost id
      = some { post with title := title, content := content, updatedAt := now }
    ∧ Post.imageUrl
        { post with title := title, content := content, updatedAt := now }
      = post.imageUrl
    ∧ (gqlUpdatePost ⟨true, uid⟩ id ⟨title, content, "undefined"⟩ now
        s).trace.any Event.isClearImage = false := by
  have hid : post._id = id := findPost_id hpost
  have e1 : gqlUpdatePost ⟨true, uid⟩ id ⟨title, content, "undefined"⟩ now s
      = ⟨.ok { post with title := title, content := content, updatedAt := now },
          s.savePost
            { post with title := title, content := content, updatedAt := now },
          [.authCheck true, .readPost id, .resolutionCheck true,
            .ownershipCheck true, .validationCheck true, .savePost post._id]⟩ := by
    simp [gqlUpdatePost, hpost, hown, hval]
  rw [e1]
  exact ⟨rfl, findPost_savePost hpost hid, rfl, rfl⟩

/-- C9 witness: the owner updating post 1 with imageUrl undefined keeps
the stored image path while title and content change. -/
theorem c9_graphql_undefined_image_witness :
    (gqlUpdatePost ⟨true, 1⟩ 1 ⟨"Nice title", "Nice content", "undefined"⟩ 7
        sampleStore).result
      = .ok
        { samplePost with
            title := "Nice title", content := "Nice content", updatedAt := 7 }
    ∧ Post.imageUrl
        { samplePost with
            title := "Nice title", content := "Nice content", updatedAt := 7 }
      = samplePost.imageUrl :=
  let h := c9_graphql_undefined_image sampleStore 1 1 7 samplePost
    "Nice title" "Nice content" rfl rfl (by decide)
  ⟨h.1, h.2.2.1⟩

/-- C6: for every input whatsoever, each mutation handler respects the
side-effect ordering discipline: all pipeline checks precede any
persistence write, every Post write precedes every User-collection write,
all persistence precedes the broadcast, a broadcast happens only when some
persistence happened, and a failed mutation never broadcasts. -/
theorem c6_effect_order (rc : RestCreateReq) (ru : RestUpdateReq)
    (ctx : AuthCtx) (pi : PostInput) (uid postId id newId now : Nat)
    (status : String) (s : Store) :
    goodMutationTrace (restCreatePost rc newId now s) = true
    ∧ goodMutationTrace (restUpdatePost ru now s) = true
    ∧ goodMutationTrace (restDeletePost uid postId s) = true
    ∧ goodMutationTrace (restDeletePostV2 uid postId s) = true
    ∧ goodMutationTrace (gqlCreatePost ctx pi newId now s) = true
    ∧ goodMutationTrace (gqlUpdatePost ctx id pi now s) = true
    ∧ goodMutationTrace (gqlDeletePost ctx id s) = true
    ∧ goodMutationTrace (gqlUpdateStatus ctx status s) = true := by
  refine ⟨?_, ?_, ?_, ?_, ?_, ?_, ?_, ?_⟩
  · simp only [restCreatePost]
    repeat' split
    all_goals rfl
  · simp only [restUpdatePost]
    repeat' split
    all_goals rfl
  · simp only [restDeletePost]
    repeat' split
    all_goals rfl
  · simp only [restDeletePostV2]
    repeat' split
    all_goals rfl
  · simp only [gqlCreatePost]
    repeat' split
    all_goals rfl
  · simp only [gqlUpdatePost]
    repeat' split
    all_goals rfl
  · simp only [gqlDeletePost]
    repeat' split
    all_goals rfl
  · simp only [gqlUpdateStatus]
    repeat' split
    all_goals rfl
